import Mathlib

/-!
Shallow embedding of the virga repository's core: the yamux-based
multiplexed transport (`src/transport/yamux_impl/mod.rs`) and the two
synchronous stream adapters (`src/client/client_sync.rs`,
`src/server/server_sync.rs`).

Bytes are modelled as `Nat` (the value of a `u8`); a message is a byte
list.  The external collaborators (the vsock connection and the yamux
library) are modelled by their contract: opening an outbound stream
yields a fresh open handle with a fresh id, `write_all` on an
already-closed stream fails, `close` marks the handle closed.  The
synchronous facade `XTransportHandler` (its source file is not part of
the core under verification; the adapters only call it) is treated as
an oracle: each adapter operation takes the outcome of the one
transport call it makes as a parameter, and reports whether that call
was made.
-/

namespace Virga

/-- a message: an arbitrary-length byte sequence -/
abbrev Msg := List Nat

/-! ## Transport layer: `YamuxTransport` (src/transport/yamux_impl/mod.rs) -/

/-- how a yamux logical stream was acquired -/
inductive StreamOrigin where
  | outbound
  | inbound
deriving DecidableEq, Repr

/-- a yamux logical stream handle: its id, how it was acquired, and
whether `close()` has been called on it -/
structure StreamHandle where
  id : Nat
  origin : StreamOrigin
  closed : Bool
deriving DecidableEq, Repr

/-- the yamux multiplexing session: allocates fresh ids for outbound
streams opened via `poll_new_outbound` -/
structure ConnectionState where
  nextOutboundId : Nat
deriving DecidableEq, Repr

/-- `YamuxTransport`: the cached `yamux_stream` and the optional
`connection`, exactly the two fields of the Rust struct -/
structure YamuxTransport where
  yamux_stream : Option StreamHandle
  connection : Option ConnectionState
deriving DecidableEq, Repr

/-- transport-level errors (`VirgeError` variants relevant here) -/
inductive TErr where
  | notConnected
  | notInitialized
  | writeClosed
deriving DecidableEq, Repr

/-- `YamuxTransport::new_client()` -/
def newClient : YamuxTransport := ⟨none, none⟩

/-- `YamuxTransport::new_server()` -/
def newServer : YamuxTransport := ⟨none, none⟩

/-- `YamuxTransport::connect` (successful case): establishes the vsock
connection and layers a fresh yamux session over it; the cached stream
field is not touched -/
def yamuxConnect (t : YamuxTransport) : YamuxTransport :=
  ⟨t.yamux_stream, some ⟨0⟩⟩

/-- `YamuxTransport::from_tokio_stream` (successful case): layers a
fresh yamux session in server mode over an accepted vsock stream -/
def fromTokioStream (t : YamuxTransport) : YamuxTransport :=
  ⟨t.yamux_stream, some ⟨0⟩⟩

/-- `YamuxTransport::is_connected`: `self.connection.is_some()` -/
def yamuxIsConnected (t : YamuxTransport) : Bool :=
  t.connection.isSome

/-- `YamuxTransport::get_or_create_stream`: if a stream is cached,
return it; otherwise open a NEW OUTBOUND stream on the session
(`poll_new_outbound`) and cache it -/
def get_or_create_stream (t : YamuxTransport) :
    Except TErr (StreamHandle × YamuxTransport) :=
  match t.yamux_stream with
  | some s => .ok (s, t)
  | none =>
    match t.connection with
    | some c =>
      let s : StreamHandle := ⟨c.nextOutboundId, .outbound, false⟩
      .ok (s, ⟨some s, some ⟨c.nextOutboundId + 1⟩⟩)
    | none => .error .notInitialized

/-- `YamuxTransport::send`: connectivity check, `get_or_create_stream`,
`write_all` (fails on a closed stream, per the yamux collaborator
contract), then `close()` marks the cached handle closed.  The third
component is ghost instrumentation: the handle `write_all` was invoked
on, if the code got that far. -/
def yamuxSend (t : YamuxTransport) (data : Msg) :
    Except TErr Unit × YamuxTransport × Option StreamHandle :=
  if yamuxIsConnected t = false then (.error .notConnected, t, none)
  else
    match get_or_create_stream t with
    | .error e => (.error e, t, none)
    | .ok (s, t1) =>
      if s.closed then (.error .writeClosed, t1, some s)
      else (.ok (), ⟨some ⟨s.id, s.origin, true⟩, t1.connection⟩, some s)

/-- `YamuxTransport::recv`: connectivity check, `get_or_create_stream`
(the same outbound-opening path `send` uses), then `read_to_end` on the
acquired stream; the bytes the peer eventually delivers on that stream
are a parameter.  The third component is ghost instrumentation: the
handle `read_to_end` was invoked on. -/
def yamuxRecv (t : YamuxTransport) (peerData : Msg) :
    Except TErr Msg × YamuxTransport × Option StreamHandle :=
  if yamuxIsConnected t = false then (.error .notConnected, t, none)
  else
    match get_or_create_stream t with
    | .error e => (.error e, t, none)
    | .ok (s, t1) => (.ok peerData, t1, some s)

/-! ## Stream adapters: `VirgeClient` and `VirgeServer`

Both adapters keep the same three fields relevant to the claims:
`connected`, `read_buffer`, `read_total_len`.  The transport handler's
outcomes are passed in as oracle parameters. -/

/-- the read state shared by `VirgeClient` and `VirgeServer` -/
structure AdapterState where
  connected : Bool
  read_buffer : List Nat
  read_total_len : Nat
deriving DecidableEq, Repr

/-- outcome of one `transport_handler.recv()` call -/
inductive RecvOutcome where
  | msg (data : Msg)
  | fail
deriving DecidableEq, Repr

/-- result of one adapter `read` call: the bytes copied into the
caller's buffer, or an error -/
inductive ReadResult where
  | bytes (data : List Nat)
  | eNotConnected
  | eRead
deriving DecidableEq, Repr

/-- whether a read result is an error (`Err(..)` in Rust) -/
def ReadResult.isErr : ReadResult → Bool
  | .bytes _ => false
  | .eNotConnected => true
  | .eRead => true

/-- one `read` call's effect: its result, the post state, and two ghost
flags: whether `transport_handler.recv()` was invoked, and whether the
zero return came from the boundary-signal branch -/
structure ReadStep where
  result : ReadResult
  state : AdapterState
  usedRecv : Bool
  isBoundary : Bool
deriving DecidableEq, Repr

/-- `<VirgeClient as Read>::read` (src/client/client_sync.rs lines
99-136), for a caller buffer of length `bufLen`; `q` is the outcome
`transport_handler.recv()` would produce if called -/
def clientRead (s : AdapterState) (bufLen : Nat) (q : RecvOutcome) : ReadStep :=
  if s.connected = false then ⟨.eNotConnected, s, false, false⟩
  else if s.read_buffer ≠ [] then
    let len := min s.read_buffer.length bufLen
    ⟨.bytes (s.read_buffer.take len),
      ⟨s.connected, s.read_buffer.drop len, s.read_total_len⟩, false, false⟩
  else if s.read_buffer = [] ∧ s.read_total_len ≠ 0 then
    ⟨.bytes [], ⟨s.connected, s.read_buffer, 0⟩, false, true⟩
  else
    match q with
    | .msg data =>
      if data.length ≤ bufLen then
        ⟨.bytes data, ⟨s.connected, s.read_buffer, data.length⟩, true, false⟩
      else
        ⟨.bytes (data.take bufLen),
          ⟨s.connected, s.read_buffer ++ data.drop bufLen, data.length⟩,
          true, false⟩
    | .fail => ⟨.eRead, s, true, false⟩

/-- `<VirgeServer as Read>::read` (src/server/server_sync.rs lines
75-115).  It differs from the client in the drain branch: when the
drain empties `read_buffer`, `read_total_len` is reset to 0 there. -/
def serverRead (s : AdapterState) (bufLen : Nat) (q : RecvOutcome) : ReadStep :=
  if s.connected = false then ⟨.eNotConnected, s, false, false⟩
  else if s.read_buffer ≠ [] then
    let len := min s.read_buffer.length bufLen
    let rb := s.read_buffer.drop len
    ⟨.bytes (s.read_buffer.take len),
      ⟨s.connected, rb, if rb = [] then 0 else s.read_total_len⟩, false, false⟩
  else if s.read_buffer = [] ∧ s.read_total_len ≠ 0 then
    ⟨.bytes [], ⟨s.connected, s.read_buffer, 0⟩, false, true⟩
  else
    match q with
    | .msg data =>
      if data.length ≤ bufLen then
        ⟨.bytes data, ⟨s.connected, s.read_buffer, data.length⟩, true, false⟩
      else
        ⟨.bytes (data.take bufLen),
          ⟨s.connected, s.read_buffer ++ data.drop bufLen, data.length⟩,
          true, false⟩
    | .fail => ⟨.eRead, s, true, false⟩

/-- errors surfaced by adapter write/send/recv -/
inductive AErr where
  | notConnected
  | transport
deriving DecidableEq, Repr

/-- `<VirgeClient as Write>::write`: connectivity check, then forward
the whole buffer to `transport_handler.send`; `o` is that call's
outcome (accepted length or failure).  Second component: post state
(never modified); third: whether the transport was invoked. -/
def clientWrite (s : AdapterState) (o : Except Unit Nat) :
    Except AErr Nat × AdapterState × Bool :=
  if s.connected = false then (.error .notConnected, s, false)
  else
    match o with
    | .ok n => (.ok n, s, true)
    | .error _ => (.error .transport, s, true)

/-- `VirgeClient::send` (the public method): same shape as write -/
def clientSendM (s : AdapterState) (o : Except Unit Nat) :
    Except AErr Nat × AdapterState × Bool :=
  if s.connected = false then (.error .notConnected, s, false)
  else
    match o with
    | .ok n => (.ok n, s, true)
    | .error _ => (.error .transport, s, true)

/-- `VirgeClient::recv` (the public method): connectivity check, then
forward `transport_handler.recv()` -/
def clientRecvM (s : AdapterState) (q : RecvOutcome) :
    Except AErr Msg × AdapterState × Bool :=
  if s.connected = false then (.error .notConnected, s, false)
  else
    match q with
    | .msg data => (.ok data, s, true)
    | .fail => (.error .transport, s, true)

/-- `<VirgeServer as Write>::write` -/
def serverWrite (s : AdapterState) (o : Except Unit Nat) :
    Except AErr Nat × AdapterState × Bool :=
  if s.connected = false then (.error .notConnected, s, false)
  else
    match o with
    | .ok n => (.ok n, s, true)
    | .error _ => (.error .transport, s, true)

/-- `VirgeServer::send` -/
def serverSendM (s : AdapterState) (o : Except Unit Nat) :
    Except AErr Nat × AdapterState × Bool :=
  if s.connected = false then (.error .notConnected, s, false)
  else
    match o with
    | .ok n => (.ok n, s, true)
    | .error _ => (.error .transport, s, true)

/-- `VirgeServer::recv` -/
def serverRecvM (s : AdapterState) (q : RecvOutcome) :
    Except AErr Msg × AdapterState × Bool :=
  if s.connected = false then (.error .notConnected, s, false)
  else
    match q with
    | .msg data => (.ok data, s, true)
    | .fail => (.error .transport, s, true)

/-- result of `disconnect` -/
inductive DiscResult where
  | ok
  | ePending
deriving DecidableEq, Repr

/-- `VirgeClient::disconnect`: refuse while `read_buffer` is non-empty;
otherwise tear down the transport and clear the flag.  The wrapped
`transport_handler.disconnect()` is infallible: the underlying
`YamuxTransport::disconnect` (src/transport/yamux_impl/mod.rs lines
98-107) only drops the session and returns `Ok(())`. -/
def clientDisconnect (s : AdapterState) : DiscResult × AdapterState :=
  if s.read_buffer ≠ [] then (.ePending, s)
  else (.ok, ⟨false, s.read_buffer, s.read_total_len⟩)

/-- `VirgeServer::disconnect`: identical guard and teardown -/
def serverDisconnect (s : AdapterState) : DiscResult × AdapterState :=
  if s.read_buffer ≠ [] then (.ePending, s)
  else (.ok, ⟨false, s.read_buffer, s.read_total_len⟩)

/-- `VirgeClient::connect` (outcome of the transport connect passed as
`o`): on success set the flag, on failure propagate and leave the state
as it was -/
def clientConnect (s : AdapterState) (o : Except Unit Unit) :
    Except Unit Unit × AdapterState :=
  match o with
  | .ok _ => (.ok (), ⟨true, s.read_buffer, s.read_total_len⟩)
  | .error e => (.error e, s)

/-- `VirgeClient::is_connected`: local flag AND the transport handler's
own liveness check (`thConn`) -/
def clientIsConnected (s : AdapterState) (thConn : Bool) : Bool :=
  s.connected && thConn

/-- `VirgeServer::is_connected` -/
def serverIsConnected (s : AdapterState) (thConn : Bool) : Bool :=
  s.connected && thConn

/-- `VirgeClient::new`: disconnected, empty buffer, zero length -/
def clientNew : AdapterState := ⟨false, [], 0⟩

/-- `VirgeServer::new(trans, conn)` -/
def serverNew (conn : Bool) : AdapterState := ⟨conn, [], 0⟩

/-! ## Multi-call read driver

`clientRun`/`serverRun` perform a sequence of `read` calls with the
given caller-buffer lengths.  The transport handler is modelled as a
FIFO queue of `recv` outcomes, popped exactly when a read reaches the
`transport_handler.recv()` call.  Each entry of the trace records the
result and the ghost boundary flag. -/

/-- run a sequence of client reads -/
def clientRun (s : AdapterState) (queue : List RecvOutcome) :
    List Nat → List (ReadResult × Bool) × AdapterState × List RecvOutcome
  | [] => ([], s, queue)
  | l :: ls =>
    let st := clientRead s l (queue.headD .fail)
    let queue1 := if st.usedRecv then queue.tail else queue
    let rest := clientRun st.state queue1 ls
    ((st.result, st.isBoundary) :: rest.1, rest.2)

/-- run a sequence of server reads -/
def serverRun (s : AdapterState) (queue : List RecvOutcome) :
    List Nat → List (ReadResult × Bool) × AdapterState × List RecvOutcome
  | [] => ([], s, queue)
  | l :: ls =>
    let st := serverRead s l (queue.headD .fail)
    let queue1 := if st.usedRecv then queue.tail else queue
    let rest := serverRun st.state queue1 ls
    ((st.result, st.isBoundary) :: rest.1, rest.2)

/-- bytes returned by the reads of a trace strictly before the first
boundary signal, concatenated -/
def chunksBefore : List (ReadResult × Bool) → List Nat
  | [] => []
  | (r, b) :: rest =>
    if b then []
    else (match r with | .bytes d => d | _ => []) ++ chunksBefore rest

/-- whether a trace contains a boundary signal -/
def hasBoundary (tr : List (ReadResult × Bool)) : Bool :=
  tr.any (fun p => p.2)

/-! ## Theorems -/

/-- C5: for every adapter state (client or server), `disconnect()`
returns an error whenever `read_buffer` is non-empty at call time, for
any non-empty buffered remainder, and then neither the connected flag
nor the read state changes; when `read_buffer` is empty, disconnect
tears down the channel and clears the connected flag. -/
theorem disconnect_guard (s : AdapterState) :
    (s.read_buffer ≠ [] →
      clientDisconnect s = (.ePending, s) ∧
      serverDisconnect s = (.ePending, s)) ∧
    (s.read_buffer = [] →
      clientDisconnect s = (.ok, ⟨false, s.read_buffer, s.read_total_len⟩) ∧
      serverDisconnect s = (.ok, ⟨false, s.read_buffer, s.read_total_len⟩)) := by
  constructor
  · intro h
    simp [clientDisconnect, serverDisconnect, h]
  · intro h
    simp [clientDisconnect, serverDisconnect, h]

/-- witness for C5: a state with ten buffered bytes is refused, an
empty-buffer state is torn down -/
theorem disconnect_guard_witness :
    clientDisconnect ⟨true, [0, 1, 2, 3, 4, 5, 6, 7, 8, 9], 10⟩ =
      (.ePending, ⟨true, [0, 1, 2, 3, 4, 5, 6, 7, 8, 9], 10⟩) ∧
    serverDisconnect ⟨true, [], 3⟩ = (.ok, ⟨false, [], 3⟩) :=
  ⟨((disconnect_guard ⟨true, [0, 1, 2, 3, 4, 5, 6, 7, 8, 9], 10⟩).1 (by decide)).1,
   ((disconnect_guard ⟨true, [], 3⟩).2 (by decide)).2⟩

/-- C6: on an adapter whose connected flag is false, each of read,
write, send and recv returns a NotConnected error, performs no
transport operation (the used-transport flag is false), and leaves the
read state untouched. -/
theorem not_connected_errors (s : AdapterState) (h : s.connected = false)
    (n : Nat) (q : RecvOutcome) (o : Except Unit Nat) :
    clientRead s n q = ⟨.eNotConnected, s, false, false⟩ ∧
    clientWrite s o = (.error .notConnected, s, false) ∧
    clientSendM s o = (.error .notConnected, s, false) ∧
    clientRecvM s q = (.error .notConnected, s, false) ∧
    serverRead s n q = ⟨.eNotConnected, s, false, false⟩ ∧
    serverWrite s o = (.error .notConnected, s, false) ∧
    serverSendM s o = (.error .notConnected, s, false) ∧
    serverRecvM s q = (.error .notConnected, s, false) := by
  simp [clientRead, clientWrite, clientSendM, clientRecvM,
    serverRead, serverWrite, serverSendM, serverRecvM, h]

/-- witness for C6: a fresh client refuses a read and a write -/
theorem not_connected_errors_witness :
    clientRead clientNew 4 (.msg [1]) = ⟨.eNotConnected, clientNew, false, false⟩ ∧
    clientWrite clientNew (.ok 1) = (.error .notConnected, clientNew, false) :=
  ⟨(not_connected_errors clientNew (by decide) 4 (.msg [1]) (.ok 1)).1,
   (not_connected_errors clientNew (by decide) 4 (.msg [1]) (.ok 1)).2.1⟩

/-- C7: for both adapters, `is_connected()` is true iff the local
connected flag is set AND the channel's liveness check returns true;
consequently it is false on a fresh (pre-connect) adapter, false after
a successful disconnect, and true after a successful connect while the
channel reports itself connected. -/
theorem is_connected_iff (s : AdapterState) (b : Bool) :
    (clientIsConnected s b = true ↔ s.connected = true ∧ b = true) ∧
    (serverIsConnected s b = true ↔ s.connected = true ∧ b = true) ∧
    clientIsConnected clientNew b = false ∧
    serverIsConnected (serverNew false) b = false ∧
    (s.read_buffer = [] →
      clientIsConnected (clientDisconnect s).2 b = false ∧
      serverIsConnected (serverDisconnect s).2 b = false) ∧
    clientIsConnected (clientConnect s (.ok ())).2 true = true := by
  refine ⟨?_, ?_, ?_, ?_, ?_, ?_⟩
  · simp [clientIsConnected]
  · simp [serverIsConnected]
  · simp [clientIsConnected, clientNew]
  · simp [serverIsConnected, serverNew]
  · intro h
    simp [clientIsConnected, serverIsConnected, clientDisconnect, serverDisconnect, h]
  · simp [clientIsConnected, clientConnect]

/-- witness for C7: a connected adapter with a live channel reports
true; after disconnecting it reports false -/
theorem is_connected_iff_witness :
    (clientIsConnected ⟨true, [], 0⟩ true = true ↔
      (⟨true, [], 0⟩ : AdapterState).connected = true ∧ true = true) ∧
    clientIsConnected (clientDisconnect ⟨true, [], 0⟩).2 true = false :=
  ⟨(is_connected_iff ⟨true, [], 0⟩ true).1,
   ((is_connected_iff ⟨true, [], 0⟩ true).2.2.2.2.1 rfl).1⟩

/-- C8: a zero-length message delivered to a Connected adapter with
empty `read_buffer` and `read_total_len = 0` makes `read` return 0
immediately and leaves `read_total_len` at 0, so no boundary signal
follows; the observable (result, post-state) pair is identical to that
of a boundary-signal read, so the two are indistinguishable at the
read interface. -/
theorem zero_length_message (n : Nat) (t : Nat) (ht : t ≠ 0) (q : RecvOutcome) :
    clientRead ⟨true, [], 0⟩ n (.msg []) = ⟨.bytes [], ⟨true, [], 0⟩, true, false⟩ ∧
    serverRead ⟨true, [], 0⟩ n (.msg []) = ⟨.bytes [], ⟨true, [], 0⟩, true, false⟩ ∧
    (clientRead ⟨true, [], t⟩ n q).result = .bytes [] ∧
    (clientRead ⟨true, [], t⟩ n q).state = ⟨true, [], 0⟩ ∧
    (serverRead ⟨true, [], t⟩ n q).result = .bytes [] ∧
    (serverRead ⟨true, [], t⟩ n q).state = ⟨true, [], 0⟩ := by
  simp [clientRead, serverRead, ht]

/-- witness for C8: concrete zero-length delivery next to a concrete
boundary read -/
theorem zero_length_message_witness :
    clientRead ⟨true, [], 0⟩ 8 (.msg []) = ⟨.bytes [], ⟨true, [], 0⟩, true, false⟩ ∧
    (clientRead ⟨true, [], 5⟩ 8 .fail).result = .bytes [] :=
  ⟨(zero_length_message 8 5 (by decide) .fail).1,
   (zero_length_message 8 5 (by decide) .fail).2.2.1⟩

/-- C9: on a Connected adapter with a non-empty `read_buffer`, a read
with a zero-length caller buffer returns 0, consumes nothing, leaves
the state unchanged, and is not a boundary signal. -/
theorem zero_buffer_read (s : AdapterState) (hc : s.connected = true)
    (hb : s.read_buffer ≠ []) (q : RecvOutcome) :
    clientRead s 0 q = ⟨.bytes [], s, false, false⟩ ∧
    serverRead s 0 q = ⟨.bytes [], s, false, false⟩ := by
  obtain ⟨c, rb, tl⟩ := s
  simp only at hc hb
  subst hc
  simp [clientRead, serverRead, hb]

/-- witness for C9: reading into an empty buffer with three bytes
pending -/
theorem zero_buffer_read_witness :
    clientRead ⟨true, [7, 8, 9], 3⟩ 0 .fail =
      ⟨.bytes [], ⟨true, [7, 8, 9], 3⟩, false, false⟩ :=
  (zero_buffer_read ⟨true, [7, 8, 9], 3⟩ (by decide) (by decide) .fail).1

/-- C10: whenever an adapter operation (read, write, send, recv,
disconnect) returns an error — including a transport failure surfaced
during read — the adapter's state (in particular `read_buffer` and
`read_total_len`) is exactly what it was before the call.  For
write/send/recv the post state equals the pre state unconditionally. -/
theorem error_atomicity (s : AdapterState) (n : Nat) (q : RecvOutcome)
    (o : Except Unit Nat) :
    ((clientRead s n q).result.isErr = true → (clientRead s n q).state = s) ∧
    ((serverRead s n q).result.isErr = true → (serverRead s n q).state = s) ∧
    (clientWrite s o).2.1 = s ∧
    (clientSendM s o).2.1 = s ∧
    (clientRecvM s q).2.1 = s ∧
    (serverWrite s o).2.1 = s ∧
    (serverSendM s o).2.1 = s ∧
    (serverRecvM s q).2.1 = s ∧
    ((clientDisconnect s).1 = .ePending → (clientDisconnect s).2 = s) ∧
    ((serverDisconnect s).1 = .ePending → (serverDisconnect s).2 = s) := by
  refine ⟨?_, ?_, ?_, ?_, ?_, ?_, ?_, ?_, ?_, ?_⟩
  · intro h
    unfold clientRead at h ⊢
    split_ifs at h ⊢
    · rfl
    · simp [ReadResult.isErr] at h
    · simp [ReadResult.isErr] at h
    · cases q with
      | msg data =>
        by_cases hd : data.length ≤ n <;> simp [hd, ReadResult.isErr] at h
      | fail => rfl
  · intro h
    unfold serverRead at h ⊢
    split_ifs at h ⊢
    · rfl
    · simp [ReadResult.isErr] at h
    · simp [ReadResult.isErr] at h
    · cases q with
      | msg data =>
        by_cases hd : data.length ≤ n <;> simp [hd, ReadResult.isErr] at h
      | fail => rfl
  · cases o <;> unfold clientWrite <;> split_ifs <;> rfl
  · cases o <;> unfold clientSendM <;> split_ifs <;> rfl
  · cases q <;> unfold clientRecvM <;> split_ifs <;> rfl
  · cases o <;> unfold serverWrite <;> split_ifs <;> rfl
  · cases o <;> unfold serverSendM <;> split_ifs <;> rfl
  · cases q <;> unfold serverRecvM <;> split_ifs <;> rfl
  · intro h
    unfold clientDisconnect at h ⊢
    split_ifs at h ⊢ <;> simp_all
  · intro h
    unfold serverDisconnect at h ⊢
    split_ifs at h ⊢ <;> simp_all

/-- witness for C10: a transport failure during a client read leaves
the three-byte pending state untouched, and a refused disconnect
leaves it untouched too -/
theorem error_atomicity_witness :
    (clientRead ⟨true, [], 4⟩ 2 .fail).state = ⟨true, [], 4⟩ ∨
    ((clientRead ⟨true, [], 0⟩ 2 .fail).result.isErr = true →
      (clientRead ⟨true, [], 0⟩ 2 .fail).state = ⟨true, [], 0⟩) :=
  Or.inr (error_atomicity ⟨true, [], 0⟩ 2 .fail (.ok 0)).1

/-- C2 (code defect): `YamuxTransport::send` does NOT acquire a fresh
outbound stream per call.  After `connect`, the first send opens and
uses stream 0, closes it, and leaves the handle cached in
`yamux_stream`; the second send retrieves that same (now closed)
handle 0 from the cache, attempts to write to it, and fails — instead
of opening a new stream. -/
theorem send_reuses_closed_stream :
    (yamuxSend (yamuxConnect newClient) [1]).2.2 = some ⟨0, .outbound, false⟩ ∧
    (yamuxSend (yamuxConnect newClient) [1]).1 = .ok () ∧
    (yamuxSend (yamuxSend (yamuxConnect newClient) [1]).2.1 [2]).2.2 =
      some ⟨0, .outbound, true⟩ ∧
    (yamuxSend (yamuxSend (yamuxConnect newClient) [1]).2.1 [2]).1 =
      .error .writeClosed :=
  ⟨rfl, rfl, rfl, rfl⟩

/-- C3 (code defect): `YamuxTransport::recv` acquires its stream via
`get_or_create_stream`, the same path `send` uses, which OPENS a new
outbound stream (`poll_new_outbound`); it never accepts an inbound
stream.  Shown for both a client-mode and a server-mode session. -/
theorem recv_opens_outbound :
    (yamuxRecv (yamuxConnect newClient) []).2.2 = some ⟨0, .outbound, false⟩ ∧
    (yamuxRecv (fromTokioStream newServer) []).2.2 = some ⟨0, .outbound, false⟩ ∧
    StreamOrigin.outbound ≠ .inbound :=
  ⟨rfl, rfl, by decide⟩

/-- helper: `hasBoundary` over a cons cell -/
theorem hasBoundary_cons (r : ReadResult) (b : Bool) (tr : List (ReadResult × Bool)) :
    hasBoundary ((r, b) :: tr) = (b || hasBoundary tr) := by
  simp [hasBoundary]

/-- helper: from a Connected client state holding the remainder `r` of
an undrained message (`read_total_len ≠ 0`), any read sequence that
reaches a boundary signal returns exactly `r` before it -/
theorem clientRun_drain (t : Nat) (ht : t ≠ 0) (lens : List Nat) :
    ∀ (r : List Nat) (queue : List RecvOutcome),
      hasBoundary (clientRun ⟨true, r, t⟩ queue lens).1 = true →
      chunksBefore (clientRun ⟨true, r, t⟩ queue lens).1 = r := by
  induction lens with
  | nil =>
    intro r queue h
    simp [clientRun, hasBoundary] at h
  | cons l ls ih =>
    intro r queue h
    by_cases hr : r = []
    · subst hr
      simp [clientRun, clientRead, ht, chunksBefore]
    · have step : clientRead ⟨true, r, t⟩ l (queue.headD .fail) =
          ⟨.bytes (r.take (min r.length l)), ⟨true, r.drop (min r.length l), t⟩,
            false, false⟩ := by
        simp [clientRead, hr]
      simp only [clientRun, step] at h ⊢
      rw [hasBoundary_cons, Bool.false_or] at h
      simp only [chunksBefore, if_neg Bool.false_ne_true]
      rw [ih (r.drop (min r.length l)) queue h]
      exact List.take_append_drop _ r

/-- helper: a Connected client with nothing buffered, no pending
boundary, and an exhausted message queue never produces a boundary
signal (every read surfaces the transport failure) -/
theorem clientRun_noMsg (lens : List Nat) :
    hasBoundary (clientRun ⟨true, [], 0⟩ [] lens).1 = false := by
  induction lens with
  | nil => simp [clientRun, hasBoundary]
  | cons l ls ih =>
    have step : clientRead ⟨true, [], 0⟩ l .fail =
        ⟨.eRead, ⟨true, [], 0⟩, true, false⟩ := by
      simp [clientRead]
    simp [clientRun, step, hasBoundary_cons, ih]

/-- helper: the first read of a run whose queue holds exactly the one
message `m`, starting with empty buffer and no pending boundary -/
theorem clientRun_msg_step (m : Msg) (l0 : Nat) (ls : List Nat) :
    clientRun ⟨true, [], 0⟩ [.msg m] (l0 :: ls) =
      (if m.length ≤ l0 then
        ((.bytes m, false) :: (clientRun ⟨true, [], m.length⟩ [] ls).1,
          (clientRun ⟨true, [], m.length⟩ [] ls).2)
      else
        ((.bytes (m.take l0), false) ::
            (clientRun ⟨true, m.drop l0, m.length⟩ [] ls).1,
          (clientRun ⟨true, m.drop l0, m.length⟩ [] ls).2)) := by
  by_cases hm : m.length ≤ l0 <;> simp [clientRun, clientRead, hm]

/-- C4 (amended): a message `m` delivered to a Connected client with
empty `read_buffer` and `read_total_len = 0` is reproduced exactly:
for every sequence of caller-buffer sizes whose trace reaches the
boundary signal, the concatenation of the returned byte slices before
the boundary is `m`; moreover, on both adapters, a read whose buffer
holds all of `m` copies it fully and returns its length, and a read
with a smaller buffer returns exactly `len(buf)` bytes (never more)
and stores the remainder at the front of `read_buffer`.  (For the
server the concatenation property fails in general; see the
counterexample.) -/
theorem client_roundtrip (m : Msg) (lens : List Nat) (l : Nat) :
    (hasBoundary (clientRun ⟨true, [], 0⟩ [.msg m] lens).1 = true →
      chunksBefore (clientRun ⟨true, [], 0⟩ [.msg m] lens).1 = m) ∧
    (m.length ≤ l →
      clientRead ⟨true, [], 0⟩ l (.msg m) =
        ⟨.bytes m, ⟨true, [], m.length⟩, true, false⟩ ∧
      serverRead ⟨true, [], 0⟩ l (.msg m) =
        ⟨.bytes m, ⟨true, [], m.length⟩, true, false⟩) ∧
    (l < m.length →
      clientRead ⟨true, [], 0⟩ l (.msg m) =
        ⟨.bytes (m.take l), ⟨true, m.drop l, m.length⟩, true, false⟩ ∧
      serverRead ⟨true, [], 0⟩ l (.msg m) =
        ⟨.bytes (m.take l), ⟨true, m.drop l, m.length⟩, true, false⟩ ∧
      (m.take l).length = l) := by
  refine ⟨?_, ?_, ?_⟩
  · intro h
    cases lens with
    | nil => simp [clientRun, hasBoundary] at h
    | cons l0 ls =>
      rw [clientRun_msg_step] at h ⊢
      by_cases hm : m.length ≤ l0
      · rw [if_pos hm] at h ⊢
        by_cases hm0 : m = []
        · subst hm0
          simp only [hasBoundary_cons, Bool.false_or, List.length_nil] at h
          rw [clientRun_noMsg ls] at h
          exact absurd h (by decide)
        · have hml : m.length ≠ 0 := by simpa using hm0
          simp only [hasBoundary_cons, Bool.false_or] at h
          simp only [chunksBefore, if_neg Bool.false_ne_true]
          rw [clientRun_drain m.length hml ls [] _ h]
          simp
      · rw [if_neg hm] at h ⊢
        have hml : m.length ≠ 0 := by omega
        simp only [hasBoundary_cons, Bool.false_or] at h
        simp only [chunksBefore, if_neg Bool.false_ne_true]
        rw [clientRun_drain m.length hml ls (m.drop l0) _ h]
        exact List.take_append_drop _ m
  · intro hfit
    constructor <;> simp [clientRead, serverRead, hfit]
  · intro hlt
    have hm : ¬ m.length ≤ l := by omega
    refine ⟨?_, ?_, ?_⟩
    · simp [clientRead, hm]
    · simp [serverRead, hm]
    · simp [List.length_take]
      omega

/-- witness for C4: the three-byte message [1, 2, 3] read with
two-byte buffers is returned as [1, 2] then [3] and reassembles
exactly; the first read returns exactly two bytes and buffers [3] -/
theorem client_roundtrip_witness :
    chunksBefore (clientRun ⟨true, [], 0⟩ [.msg [1, 2, 3]] [2, 2, 2]).1 =
      [1, 2, 3] ∧
    clientRead ⟨true, [], 0⟩ 2 (.msg [1, 2, 3]) =
      ⟨.bytes [1, 2], ⟨true, [3], 3⟩, true, false⟩ :=
  ⟨(client_roundtrip [1, 2, 3] [2, 2, 2] 2).1 (by decide),
   ((client_roundtrip [1, 2, 3] [2, 2, 2] 2).2.2 (by decide)).1⟩

/-- C4 counterexample: on the server, deliver m = [1, 2] (then [3]) to
a Connected adapter with empty buffer and zero total length, and read
with buffer size 1.  The final drain resets `read_total_len`, so the
boundary signal first appears only after the next message [3] has been
returned: the concatenation of the slices before the boundary is
[1, 2, 3], not m = [1, 2]. -/
theorem server_concat_breaks :
    hasBoundary (serverRun ⟨true, [], 0⟩ [.msg [1, 2], .msg [3]] [1, 1, 1, 1]).1 =
      true ∧
    chunksBefore (serverRun ⟨true, [], 0⟩ [.msg [1, 2], .msg [3]] [1, 1, 1, 1]).1 =
      [1, 2, 3] ∧
    ([1, 2, 3] : List Nat) ≠ [1, 2] := by
  refine ⟨by decide, by decide, by decide⟩

/-- C1 (amended): on both adapters, a read from a Connected state with
empty `read_buffer` and non-zero `read_total_len` resets
`read_total_len` and returns 0 without touching the transport (the
boundary signal).  After the final drain of a buffered remainder, the
client keeps `read_total_len`, so its next read is that boundary
signal and exposes no byte of any later message; the server instead
resets `read_total_len` to 0 during the final drain, so the
drained-boundary consequence holds only for the client. -/
theorem boundary_signal (s : AdapterState) (l l2 : Nat) (q q2 : RecvOutcome)
    (r : List Nat) (t : Nat) :
    (s.connected = true → s.read_buffer = [] → s.read_total_len ≠ 0 →
      clientRead s l q = ⟨.bytes [], ⟨true, [], 0⟩, false, true⟩ ∧
      serverRead s l q = ⟨.bytes [], ⟨true, [], 0⟩, false, true⟩) ∧
    (r ≠ [] → t ≠ 0 → r.length ≤ l →
      clientRead ⟨true, r, t⟩ l q = ⟨.bytes r, ⟨true, [], t⟩, false, false⟩ ∧
      clientRead ⟨true, [], t⟩ l2 q2 = ⟨.bytes [], ⟨true, [], 0⟩, false, true⟩ ∧
      (serverRead ⟨true, r, t⟩ l q).state = ⟨true, [], 0⟩) := by
  constructor
  · intro h1 h2 h3
    obtain ⟨c, rb, tl⟩ := s
    simp only at h1 h2 h3
    subst h1
    subst h2
    simp [clientRead, serverRead, h3]
  · intro hr ht hl
    have hmin : min r.length l = r.length := Nat.min_eq_left hl
    refine ⟨?_, ?_, ?_⟩
    · simp [clientRead, hr, hmin]
    · simp [clientRead, ht]
    · simp [serverRead, hr, hmin]

/-- witness for C1 (amended): remainder [9] fully drained by a client
read of size 4 keeps the pending boundary, and the next read emits it;
the same drain on the server clears `read_total_len` -/
theorem boundary_signal_witness :
    clientRead ⟨true, [9], 5⟩ 4 .fail = ⟨.bytes [9], ⟨true, [], 5⟩, false, false⟩ ∧
    clientRead ⟨true, [], 5⟩ 4 .fail = ⟨.bytes [], ⟨true, [], 0⟩, false, true⟩ ∧
    (serverRead ⟨true, [9], 5⟩ 4 .fail).state = ⟨true, [], 0⟩ :=
  (boundary_signal ⟨true, [], 5⟩ 4 4 .fail .fail [9] 5).2
    (by decide) (by decide) (by decide)

/-- C1 counterexample: the server drains the two-byte message [1, 2]
with a one-byte buffer in two reads; the read immediately following
full drainage does NOT return 0 — it returns the first byte of the
next message [3], and the trace contains no boundary signal at all. -/
theorem server_boundary_missing :
    (serverRun ⟨true, [], 0⟩ [.msg [1, 2], .msg [3]] [1, 1, 1]).1 =
      [(.bytes [1], false), (.bytes [2], false), (.bytes [3], false)] ∧
    hasBoundary (serverRun ⟨true, [], 0⟩ [.msg [1, 2], .msg [3]] [1, 1, 1]).1 =
      false ∧
    ReadResult.bytes [3] ≠ .bytes [] := by
  refine ⟨by decide, by decide, by decide⟩

end Virga
